import Mathlib

/-!
Shallow embedding of the EDI evaluation scoring engine
(`src/Quizz/Form/services.py`, class `EDIEvaluationService`, together with
the result enumerations of `src/Quizz/Form/models.py`).

Questions carry a `domain` string and an optional `area` string exactly as the
Django models store them; answers carry the `from_previous_group` and
`value_bool` flags.  All scoring functions below are direct translations of
the corresponding Python methods.
-/

namespace EDI

/-- Traffic-light status (`EvaluationAreaResult.Status` and friends). -/
inductive Status where
  | GREEN
  | YELLOW
  | RED
deriving DecidableEq, Repr

/-- Final diagnosis (`EvaluationSummary.Diagnosis`). -/
inductive Diagnosis where
  | NORMAL
  | DELAY
  | RISK
deriving DecidableEq, Repr

/-- The fields of `Question` that the scoring engine reads. -/
structure Question where
  domain : String
  area : Option String
  is_critical : Bool
deriving DecidableEq, Repr

/-- The fields of `Answer` that the scoring engine reads. -/
structure Answer where
  question : Question
  from_previous_group : Bool
  value_bool : Bool
deriving DecidableEq, Repr

/-- Source list `EDIEvaluationService.AREAS`. -/
def AREAS : List String :=
  ["motriz_gruesa", "motriz_fina", "lenguaje", "social", "conocimiento"]

/-- One entry of `EDIEvaluationService.GROUPS_CONFIG`. -/
structure GroupConfig where
  questions_per_area : Nat
  has_frb : Bool
  has_previous : Bool
  frb_affects_global : Bool
  ale_affects_global : Bool
deriving DecidableEq, Repr

/-- Source table `EDIEvaluationService.GROUPS_CONFIG` as an association list. -/
def GROUPS_CONFIG : List (Nat × GroupConfig) :=
  [(1,  ⟨2, true,  false, true,  true⟩),
   (2,  ⟨2, true,  true,  true,  true⟩),
   (3,  ⟨2, true,  true,  true,  true⟩),
   (4,  ⟨2, true,  true,  true,  true⟩),
   (5,  ⟨2, false, true,  false, false⟩),
   (6,  ⟨2, false, true,  false, false⟩),
   (7,  ⟨2, false, true,  false, false⟩),
   (8,  ⟨3, false, true,  false, false⟩),
   (9,  ⟨3, false, true,  false, false⟩),
   (10, ⟨3, false, true,  false, false⟩),
   (11, ⟨3, false, true,  false, false⟩),
   (12, ⟨3, false, true,  false, false⟩),
   (13, ⟨3, false, true,  false, false⟩),
   (14, ⟨3, false, true,  false, false⟩),
   (15, ⟨3, false, true,  false, false⟩)]

/-- The fallback configuration passed to `GROUPS_CONFIG.get` in `__init__`. -/
def defaultConfig : GroupConfig := ⟨2, false, false, false, false⟩

/-- Mirrors `self.config = GROUPS_CONFIG.get(num, default)`. -/
def configFor (g : Nat) : GroupConfig := (GROUPS_CONFIG.lookup g).getD defaultConfig

/-- Source method `_get_age_group_num` (the month thresholds). -/
def get_age_group_num (months : Nat) : Nat :=
  if months ≤ 1 then 1
  else if months ≤ 2 then 2
  else if months ≤ 3 then 3
  else if months ≤ 4 then 4
  else if months ≤ 6 then 5
  else if months ≤ 9 then 6
  else if months ≤ 12 then 7
  else if months ≤ 15 then 8
  else if months ≤ 18 then 9
  else if months ≤ 24 then 10
  else if months ≤ 30 then 11
  else if months ≤ 36 then 12
  else if months ≤ 48 then 13
  else if months ≤ 59 then 14
  else 15

/-- The filter building `current_answers` in `_calculate_development_areas`:
domain `AREA`, matching area, not from the previous group. -/
def currentAnswers (answers : List Answer) (area : String) : List Answer :=
  answers.filter (fun a =>
    a.question.domain == "AREA" && a.question.area == some area && !a.from_previous_group)

/-- Mirrors `sum(1 for a in l if a.value_bool is True)`. -/
def yesCount (l : List Answer) : Nat := (l.filter (fun a => a.value_bool)).length

/-- Source method `_get_area_status`. -/
def get_area_status (g : Nat) (yes_count total : Nat) : Option Status :=
  if total = 0 then none
  else if g = 1 then some (if yes_count = total then Status.GREEN else Status.RED)
  else if 2 ≤ g ∧ g ≤ 7 then some (if yes_count = total then Status.GREEN else Status.YELLOW)
  else some (if 2 ≤ yes_count then Status.GREEN else Status.YELLOW)

/-- The per-area body of `_calculate_development_areas`: the `(status, (yes, total))`
pair stored in the two maps for one area. -/
def areaEntry (g : Nat) (answers : List Answer) (area : String) :
    Option Status × (Nat × Nat) :=
  let cur := currentAnswers answers area
  if cur.isEmpty then (none, (0, 0))
  else (get_area_status g (yesCount cur) cur.length, (yesCount cur, cur.length))

/-- The `area_status_map` returned by `_calculate_development_areas`. -/
def calc_area_status_map (g : Nat) (answers : List Answer) :
    List (String × Option Status) :=
  AREAS.map (fun ar => (ar, (areaEntry g answers ar).1))

/-- The `area_counts_map` returned by `_calculate_development_areas`. -/
def calc_area_counts_map (g : Nat) (answers : List Answer) :
    List (String × (Nat × Nat)) :=
  AREAS.map (fun ar => (ar, (areaEntry g answers ar).2))

/-- Helper `_count_yes` inside `_calculate_domains`. -/
def count_yes (answers : List Answer) (domain_code : String) : Nat :=
  (answers.filter (fun a => a.question.domain == domain_code && a.value_bool)).length

/-- One entry of the `info` dict built by `_calculate_domains`. -/
structure DomainInfo where
  count : Nat
  red_flags : Nat
  status : Status
deriving DecidableEq, Repr

/-- The full `info` dict of `_calculate_domains` (keys NEURO/ALARM/ALERT/BIO). -/
structure Domains where
  neuro : DomainInfo
  alarm : DomainInfo
  alert : DomainInfo
  bioRisk : DomainInfo
deriving DecidableEq, Repr

/-- Source method `_calculate_domains`. -/
def calculate_domains (answers : List Answer) : Domains :=
  let neuro_yes := count_yes answers "NEURO"
  let alarm_yes := count_yes answers "ALARM"
  let alert_yes := count_yes answers "ALERT"
  let bio_yes := count_yes answers "BIO"
  { neuro := ⟨0, neuro_yes, if 0 < neuro_yes then Status.RED else Status.GREEN⟩
    alarm := ⟨alarm_yes, 0, if 0 < alarm_yes then Status.RED else Status.GREEN⟩
    alert := ⟨alert_yes, 0, if 1 ≤ alert_yes then Status.YELLOW else Status.GREEN⟩
    bioRisk := ⟨bio_yes, 0, if 0 < bio_yes then Status.YELLOW else Status.GREEN⟩ }

/-- The filter building `prev_answers` in `_apply_previous_group_if_needed`. -/
def prevAnswers (answers : List Answer) (area : String) : List Answer :=
  answers.filter (fun a =>
    a.question.domain == "AREA" && a.question.area == some area && a.from_previous_group)

/-- The `new_status` computed for a reconciled area. -/
def prev_new_status (answers : List Answer) (area : String) : Status :=
  if 2 ≤ yesCount (prevAnswers answers area) then Status.YELLOW else Status.RED

/-- The guard chain of the loop body of `_apply_previous_group_if_needed`:
an area entry is rewritten exactly when its status is YELLOW, its recorded
total is nonzero, its recorded yes-count is zero, and fallback answers exist. -/
def entry_triggers (answers : List Answer)
    (cm : List (String × (Nat × Nat))) (p : String × Option Status) : Bool :=
  let counts := (cm.lookup p.1).getD (0, 0)
  p.2 == some Status.YELLOW && !(counts.2 == 0) && counts.1 == 0
    && !(prevAnswers answers p.1).isEmpty

/-- The `worst_prev_result` update in the loop body. -/
def step_worst (w : Option Status) (ns : Status) : Option Status :=
  if ns == Status.RED then some Status.RED
  else if w == none then some Status.YELLOW
  else w

/-- The rewrite applied to one status-map entry by the reconciliation loop. -/
def reconcileEntry (answers : List Answer) (cm : List (String × (Nat × Nat)))
    (p : String × Option Status) : String × Option Status :=
  if entry_triggers answers cm p then (p.1, some (prev_new_status answers p.1)) else p

/-- The loop of `_apply_previous_group_if_needed`, threading the
`applied_previous` flag and `worst_prev_result` through the entries. -/
def apply_prev_aux (answers : List Answer) (cm : List (String × (Nat × Nat))) :
    List (String × Option Status) → Bool → Option Status →
      Bool × Option Status × List (String × Option Status)
  | [], applied, worst => (applied, worst, [])
  | p :: rest, applied, worst =>
    if entry_triggers answers cm p then
      let ns := prev_new_status answers p.1
      let r := apply_prev_aux answers cm rest true (step_worst worst ns)
      (r.1, r.2.1, (p.1, some ns) :: r.2.2)
    else
      let r := apply_prev_aux answers cm rest applied worst
      (r.1, r.2.1, p :: r.2.2)

/-- Source method `_apply_previous_group_if_needed` (the counts map is
returned unchanged by the Python code, so it is left implicit here). -/
def apply_previous_group_if_needed (answers : List Answer)
    (sm : List (String × Option Status)) (cm : List (String × (Nat × Nat))) :
    Bool × Option Status × List (String × Option Status) :=
  apply_prev_aux answers cm sm false none

/-- The `trace` dict assembled by `_calculate_final_diagnosis`. -/
structure Trace where
  age_group_num : Nat
  red_areas : Nat
  yellow_areas : Nat
  alarm_status : Status
  neuro_status : Status
  alert_count : Nat
  bio_count : Nat
deriving DecidableEq, Repr

/-- Source method `_calculate_final_diagnosis`. -/
def calculate_final_diagnosis (g : Nat) (sm : List (String × Option Status))
    (doms : Domains) : Diagnosis × Status × Trace :=
  let areas_status := (sm.map Prod.snd).filterMap id
  let red_areas := areas_status.count Status.RED
  let yellow_areas := areas_status.count Status.YELLOW
  let has_red_alarm := doms.alarm.status = Status.RED
  let has_red_neuro := doms.neuro.status = Status.RED
  let alert_count := doms.alert.count
  let bio_count := doms.bioRisk.count
  let trace : Trace :=
    ⟨g, red_areas, yellow_areas, doms.alarm.status, doms.neuro.status, alert_count, bio_count⟩
  if 5 ≤ g then
    if 1 ≤ red_areas ∨ has_red_alarm ∨ has_red_neuro then
      (Diagnosis.RISK, Status.RED, trace)
    else if 1 ≤ yellow_areas then (Diagnosis.DELAY, Status.YELLOW, trace)
    else (Diagnosis.NORMAL, Status.GREEN, trace)
  else
    if 1 ≤ red_areas ∨ 2 ≤ yellow_areas
        ∨ (1 ≤ yellow_areas ∧ (1 ≤ bio_count ∨ 1 ≤ alert_count))
        ∨ has_red_alarm ∨ has_red_neuro then
      (Diagnosis.RISK, Status.RED, trace)
    else if 1 ≤ yellow_areas ∨ 2 ≤ alert_count ∨ 2 ≤ bio_count
        ∨ (1 ≤ alert_count ∧ 1 ≤ bio_count) then
      (Diagnosis.DELAY, Status.YELLOW, trace)
    else (Diagnosis.NORMAL, Status.GREEN, trace)

/-- A persisted `EvaluationAreaResult` row. -/
structure AreaResultRec where
  area : String
  yes_count : Nat
  total_count : Nat
  status : Status
deriving DecidableEq, Repr

/-- A persisted `EvaluationDomainResult` row. -/
structure DomainResultRec where
  domain : String
  count : Nat
  red_flags : Nat
  status : Status
deriving DecidableEq, Repr

/-- Source method `_persist_area_results`. -/
def persist_area_results (sm : List (String × Option Status))
    (cm : List (String × (Nat × Nat))) : List AreaResultRec :=
  sm.filterMap (fun p =>
    let counts := (cm.lookup p.1).getD (0, 0)
    if p.2 = none ∧ counts.2 = 0 then none
    else some ⟨p.1, counts.1, counts.2, p.2.getD Status.GREEN⟩)

/-- Source method `_persist_domain_results` (the `info` dict is iterated
in insertion order NEURO, ALARM, ALERT, BIO). -/
def persist_domain_results (d : Domains) : List DomainResultRec :=
  [⟨"NEURO", d.neuro.count, d.neuro.red_flags, d.neuro.status⟩,
   ⟨"ALARM", d.alarm.count, d.alarm.red_flags, d.alarm.status⟩,
   ⟨"ALERT", d.alert.count, d.alert.red_flags, d.alert.status⟩,
   ⟨"BIO", d.bioRisk.count, d.bioRisk.red_flags, d.bioRisk.status⟩]

/-- The persisted `EvaluationSummary` row. -/
structure Summary where
  applied_previous_group : Bool
  previous_group_result : Option Status
  diagnosis : Diagnosis
  final_status : Status
  trace : Trace
deriving DecidableEq, Repr

/-- The area-phase data held by `calculate_evaluation` after step 3
(`applied_previous`, `previous_group_result` and the two maps). -/
structure AreaPhase where
  applied : Bool
  prevResult : Option Status
  statusMap : List (String × Option Status)
  countsMap : List (String × (Nat × Nat))
deriving Repr

/-- Steps 1 and 3 of `calculate_evaluation`: score the areas, then apply the
previous-group reconciliation when the band configuration enables it. -/
def finalAreaPhase (age : Nat) (answers : List Answer) : AreaPhase :=
  let g := get_age_group_num age
  let sm := calc_area_status_map g answers
  let cm := calc_area_counts_map g answers
  if (configFor g).has_previous then
    let r := apply_previous_group_if_needed answers sm cm
    ⟨r.1, r.2.1, r.2.2, cm⟩
  else ⟨false, none, sm, cm⟩

/-- The complete derived output of one scoring run. -/
structure EvalOutput where
  areaResults : List AreaResultRec
  domainResults : List DomainResultRec
  summary : Summary
deriving DecidableEq, Repr

/-- Source method `calculate_evaluation`: the full pipeline from the
age and answer set to the derived records. -/
def calculate_evaluation (age : Nat) (answers : List Answer) : EvalOutput :=
  let g := get_age_group_num age
  let doms := calculate_domains answers
  let ph := finalAreaPhase age answers
  let fd := calculate_final_diagnosis g ph.statusMap doms
  { areaResults := persist_area_results ph.statusMap ph.countsMap
    domainResults := persist_domain_results doms
    summary := ⟨ph.applied, ph.prevResult, fd.1, fd.2.1, fd.2.2⟩ }

/-- The derived records stored for one evaluation. -/
structure EvalState where
  area_results : List AreaResultRec
  domain_results : List DomainResultRec
  summary : Option Summary
deriving DecidableEq, Repr

/-- The method `calculate_evaluation` as a state transformer on the stored derived
records: it first deletes all previous derived rows and then persists the
freshly computed ones. -/
def run_calculate_evaluation (age : Nat) (answers : List Answer)
    (s : EvalState) : EvalState :=
  let cleared : EvalState := { s with area_results := [], domain_results := [], summary := none }
  let out := calculate_evaluation age answers
  { cleared with
    area_results := out.areaResults
    domain_results := out.domainResults
    summary := some out.summary }

/-! ### Helper lemmas -/

theorem get_age_group_num_of_ge_60 (m : Nat) (h : 60 ≤ m) :
    get_age_group_num m = 15 := by
  have h1 : ¬ m ≤ 1 := by omega
  have h2 : ¬ m ≤ 2 := by omega
  have h3 : ¬ m ≤ 3 := by omega
  have h4 : ¬ m ≤ 4 := by omega
  have h5 : ¬ m ≤ 6 := by omega
  have h6 : ¬ m ≤ 9 := by omega
  have h7 : ¬ m ≤ 12 := by omega
  have h8 : ¬ m ≤ 15 := by omega
  have h9 : ¬ m ≤ 18 := by omega
  have h10 : ¬ m ≤ 24 := by omega
  have h11 : ¬ m ≤ 30 := by omega
  have h12 : ¬ m ≤ 36 := by omega
  have h13 : ¬ m ≤ 48 := by omega
  have h14 : ¬ m ≤ 59 := by omega
  simp [get_age_group_num, h1, h2, h3, h4, h5, h6, h7, h8, h9, h10, h11, h12,
    h13, h14]

theorem get_age_group_num_ge_one (m : Nat) : 1 ≤ get_age_group_num m := by
  rcases Nat.lt_or_ge m 60 with h | h
  · interval_cases m <;> decide
  · rw [get_age_group_num_of_ge_60 m h]; decide

theorem get_age_group_num_le_15 (m : Nat) : get_age_group_num m ≤ 15 := by
  rcases Nat.lt_or_ge m 60 with h | h
  · interval_cases m <;> decide
  · rw [get_age_group_num_of_ge_60 m h]

/-- The band-dependent area thresholds exactly as the specification phrases
them: band 1 is GREEN-or-RED on a perfect score, bands up to 7 are
GREEN-or-YELLOW on a perfect score, later bands are GREEN on two hits. -/
def areaSpecStatus (g yes total : Nat) : Status :=
  if g = 1 then (if yes = total then Status.GREEN else Status.RED)
  else if g ≤ 7 then (if yes = total then Status.GREEN else Status.YELLOW)
  else (if 2 ≤ yes then Status.GREEN else Status.YELLOW)

theorem get_area_status_eq_spec (g yes total : Nat) (h1 : 1 ≤ g) :
    get_area_status g yes total =
      if total = 0 then none else some (areaSpecStatus g yes total) := by
  unfold get_area_status areaSpecStatus
  split_ifs <;> first | rfl | omega

theorem lookup_areas_map {α : Type} (f : String → α) (ar : String) (h : ar ∈ AREAS) :
    (AREAS.map (fun x => (x, f x))).lookup ar = some (f ar) := by
  simp only [AREAS, List.mem_cons, List.not_mem_nil, or_false] at h
  rcases h with h | h | h | h | h <;> subst h <;> rfl

theorem lookup_status_map (g : Nat) (answers : List Answer) (ar : String)
    (h : ar ∈ AREAS) :
    (calc_area_status_map g answers).lookup ar = some (areaEntry g answers ar).1 :=
  lookup_areas_map _ ar h

theorem lookup_counts_map (g : Nat) (answers : List Answer) (ar : String)
    (h : ar ∈ AREAS) :
    (calc_area_counts_map g answers).lookup ar = some (areaEntry g answers ar).2 :=
  lookup_areas_map _ ar h

/-- The specification-side reading of `red_areas`/`yellow_areas`: count the
status-map entries whose (non-absent) status equals the given one. -/
def countAreaStatus (sm : List (String × Option Status)) (s : Status) : Nat :=
  (sm.filter (fun p => p.2 == some s)).length

theorem filterMap_snd_count (sm : List (String × Option Status)) (s : Status) :
    (sm.filterMap Prod.snd).count s = countAreaStatus sm s := by
  induction sm with
  | nil => rfl
  | cons p rest ih =>
    rcases p with ⟨k, st⟩
    cases st with
    | none => simpa [countAreaStatus, List.filterMap_cons, List.filter_cons] using ih
    | some v =>
      simp only [countAreaStatus, List.filterMap_cons, List.filter_cons,
        List.count_cons, ih]
      by_cases hv : v = s <;> simp [hv, countAreaStatus]

theorem filterMap_count_eq (sm : List (String × Option Status)) (s : Status) :
    ((sm.map Prod.snd).filterMap id).count s = countAreaStatus sm s := by
  rw [show ((sm.map Prod.snd).filterMap id) = sm.filterMap Prod.snd by
    simp [List.filterMap_map]]
  exact filterMap_snd_count sm s

theorem apply_prev_aux_map (answers : List Answer) (cm : List (String × (Nat × Nat)))
    (l : List (String × Option Status)) (ap : Bool) (w : Option Status) :
    (apply_prev_aux answers cm l ap w).2.2 = l.map (reconcileEntry answers cm) := by
  induction l generalizing ap w with
  | nil => rfl
  | cons p rest ih =>
    by_cases h : entry_triggers answers cm p <;>
      simp [apply_prev_aux, reconcileEntry, h, ih]

theorem apply_prev_aux_applied (answers : List Answer)
    (cm : List (String × (Nat × Nat))) (l : List (String × Option Status))
    (ap : Bool) (w : Option Status) :
    (apply_prev_aux answers cm l ap w).1 = (ap || l.any (entry_triggers answers cm)) := by
  induction l generalizing ap w with
  | nil => simp [apply_prev_aux]
  | cons p rest ih =>
    by_cases h : entry_triggers answers cm p <;>
      simp [apply_prev_aux, h, ih]

/-- Does any entry trigger reconciliation and get reclassified to RED? -/
def anyPrevRed (answers : List Answer) (cm : List (String × (Nat × Nat)))
    (l : List (String × Option Status)) : Bool :=
  l.any (fun p => entry_triggers answers cm p && (prev_new_status answers p.1 == Status.RED))

theorem apply_prev_aux_worst (answers : List Answer)
    (cm : List (String × (Nat × Nat))) (l : List (String × Option Status))
    (ap : Bool) (w : Option Status) :
    (apply_prev_aux answers cm l ap w).2.1 =
      if anyPrevRed answers cm l then some Status.RED
      else if l.any (entry_triggers answers cm) then
        (if w = none then some Status.YELLOW else w)
      else w := by
  induction l generalizing ap w with
  | nil => simp [apply_prev_aux, anyPrevRed]
  | cons p rest ih =>
    by_cases htrig : entry_triggers answers cm p
    case neg =>
      have hf : entry_triggers answers cm p = false := by simpa using htrig
      simp only [apply_prev_aux, hf, Bool.false_eq_true, if_false, ih, anyPrevRed,
        List.any_cons, Bool.false_and, Bool.false_or]
    case pos =>
      by_cases hred : prev_new_status answers p.1 = Status.RED
      · simp [apply_prev_aux, htrig, ih, anyPrevRed, hred, step_worst]
      · have hyw : prev_new_status answers p.1 = Status.YELLOW := by
          by_cases hcase : 2 ≤ yesCount (prevAnswers answers p.1) <;>
            simp [prev_new_status, hcase] at hred ⊢
        have hf2 : (Status.YELLOW == Status.RED) = false := rfl
        simp only [apply_prev_aux, htrig, if_true, ih, anyPrevRed, step_worst,
          hyw, hf2, List.any_cons, Bool.true_and, Bool.false_or]
        by_cases hrest : (rest.any fun q =>
            entry_triggers answers cm q && (prev_new_status answers q.1 == Status.RED)) = true
        · simp [hrest]
        · have hrf : (rest.any fun q =>
              entry_triggers answers cm q && (prev_new_status answers q.1 == Status.RED)) = false := by
            simpa using hrest
          by_cases hw : w = none <;> simp [hrf, hw]

theorem finalAreaPhase_statusMap (age : Nat) (answers : List Answer) :
    (finalAreaPhase age answers).statusMap =
      if (configFor (get_age_group_num age)).has_previous then
        (calc_area_status_map (get_age_group_num age) answers).map
          (reconcileEntry answers (calc_area_counts_map (get_age_group_num age) answers))
      else calc_area_status_map (get_age_group_num age) answers := by
  simp only [finalAreaPhase, apply_previous_group_if_needed]
  split <;> simp_all [apply_prev_aux_map]

theorem finalAreaPhase_countsMap (age : Nat) (answers : List Answer) :
    (finalAreaPhase age answers).countsMap =
      calc_area_counts_map (get_age_group_num age) answers := by
  simp only [finalAreaPhase, apply_previous_group_if_needed]
  split <;> rfl

theorem finalAreaPhase_applied (age : Nat) (answers : List Answer) :
    (finalAreaPhase age answers).applied =
      ((configFor (get_age_group_num age)).has_previous &&
        (calc_area_status_map (get_age_group_num age) answers).any
          (entry_triggers answers (calc_area_counts_map (get_age_group_num age) answers))) := by
  simp only [finalAreaPhase, apply_previous_group_if_needed]
  split <;> simp_all [apply_prev_aux_applied]

theorem finalAreaPhase_prevResult (age : Nat) (answers : List Answer) :
    (finalAreaPhase age answers).prevResult =
      (if (configFor (get_age_group_num age)).has_previous then
        (if anyPrevRed answers (calc_area_counts_map (get_age_group_num age) answers)
              (calc_area_status_map (get_age_group_num age) answers) then some Status.RED
         else if (calc_area_status_map (get_age_group_num age) answers).any
              (entry_triggers answers (calc_area_counts_map (get_age_group_num age) answers)) then
           some Status.YELLOW
         else none)
      else none) := by
  simp only [finalAreaPhase, apply_previous_group_if_needed]
  split <;> simp_all [apply_prev_aux_worst]

theorem areaEntry_total_ne_zero (g : Nat) (answers : List Answer) (ar : String)
    (h : (areaEntry g answers ar).1 ≠ none) :
    (areaEntry g answers ar).2.2 ≠ 0 ∧ (currentAnswers answers ar).isEmpty = false := by
  unfold areaEntry at *
  by_cases hc : (currentAnswers answers ar).isEmpty
  · simp [hc] at h
  · have hc2 : (currentAnswers answers ar).isEmpty = false := by simpa using hc
    have hne : currentAnswers answers ar ≠ [] := by
      simpa [List.isEmpty_iff] using hc
    have hpos : 0 < (currentAnswers answers ar).length := List.length_pos.2 hne
    refine ⟨?_, hc2⟩
    simp only [hc2, Bool.false_eq_true, if_false]
    omega

/-- The specification-level trigger condition for reconciliation of one area:
currently YELLOW, zero current-band yes-answers, fallback answers present. -/
def triggerProp (g : Nat) (answers : List Answer) (ar : String) : Prop :=
  (areaEntry g answers ar).1 = some Status.YELLOW
  ∧ (areaEntry g answers ar).2.1 = 0
  ∧ prevAnswers answers ar ≠ []

instance (g : Nat) (answers : List Answer) (ar : String) :
    Decidable (triggerProp g answers ar) := by
  unfold triggerProp
  infer_instance

theorem entry_triggers_iff (g : Nat) (answers : List Answer) (ar : String)
    (h : ar ∈ AREAS) :
    entry_triggers answers (calc_area_counts_map g answers)
        (ar, (areaEntry g answers ar).1) = true ↔ triggerProp g answers ar := by
  unfold entry_triggers triggerProp
  rw [lookup_counts_map g answers ar h]
  simp only [Option.getD_some, Bool.and_eq_true, beq_iff_eq, Bool.not_eq_eq_eq_not,
    Bool.not_true, List.isEmpty_eq_false, List.isEmpty_iff, beq_eq_false_iff_ne]
  constructor
  · rintro ⟨⟨⟨h1, h2⟩, h3⟩, h4⟩
    exact ⟨h1, by simpa using h3, h4⟩
  · rintro ⟨h1, h2, h3⟩
    have hne := (areaEntry_total_ne_zero g answers ar (by simp [h1])).1
    exact ⟨⟨⟨h1, by simpa using hne⟩, by simpa using h2⟩, h3⟩


theorem any_status_map_iff (g : Nat) (answers : List Answer) :
    ((calc_area_status_map g answers).any
        (entry_triggers answers (calc_area_counts_map g answers)) = true) ↔
      ∃ ar ∈ AREAS, triggerProp g answers ar := by
  unfold calc_area_status_map
  rw [List.any_eq_true]
  constructor
  · rintro ⟨x, hx, hpx⟩
    obtain ⟨ar, har, rfl⟩ := List.mem_map.1 hx
    exact ⟨ar, har, (entry_triggers_iff g answers ar har).1 hpx⟩
  · rintro ⟨ar, har, ht⟩
    exact ⟨(ar, (areaEntry g answers ar).1), List.mem_map_of_mem _ har,
      (entry_triggers_iff g answers ar har).2 ht⟩

theorem anyPrevRed_iff (g : Nat) (answers : List Answer) :
    (anyPrevRed answers (calc_area_counts_map g answers)
        (calc_area_status_map g answers) = true) ↔
      ∃ ar ∈ AREAS, triggerProp g answers ar ∧ yesCount (prevAnswers answers ar) < 2 := by
  unfold anyPrevRed calc_area_status_map
  rw [List.any_eq_true]
  constructor
  · rintro ⟨x, hx, hpx⟩
    obtain ⟨ar, har, rfl⟩ := List.mem_map.1 hx
    rw [Bool.and_eq_true] at hpx
    obtain ⟨h1, h2⟩ := hpx
    refine ⟨ar, har, (entry_triggers_iff g answers ar har).1 h1, ?_⟩
    unfold prev_new_status at h2
    by_cases hc : 2 ≤ yesCount (prevAnswers answers ar)
    · simp [hc] at h2
    · omega
  · rintro ⟨ar, har, ht, hlt⟩
    refine ⟨(ar, (areaEntry g answers ar).1), List.mem_map_of_mem _ har, ?_⟩
    rw [Bool.and_eq_true]
    refine ⟨(entry_triggers_iff g answers ar har).2 ht, ?_⟩
    unfold prev_new_status
    have hc : ¬ 2 ≤ yesCount (prevAnswers answers ar) := by omega
    simp [hc]

def statusSeverity : Status → Nat
  | Status.GREEN => 0
  | Status.YELLOW => 1
  | Status.RED => 2

def diagnosisSeverity : Diagnosis → Nat
  | Diagnosis.NORMAL => 0
  | Diagnosis.DELAY => 1
  | Diagnosis.RISK => 2

theorem statusSeverity_le_two (s : Status) : statusSeverity s ≤ 2 := by
  cases s <;> simp [statusSeverity]

theorem diagnosisSeverity_le_two (d : Diagnosis) : diagnosisSeverity d ≤ 2 := by
  cases d <;> simp [diagnosisSeverity]

theorem final_diagnosis_of_red_alarm (g : Nat) (sm : List (String × Option Status))
    (doms : Domains) (h : doms.alarm.status = Status.RED) :
    (calculate_final_diagnosis g sm doms).1 = Diagnosis.RISK ∧
      (calculate_final_diagnosis g sm doms).2.1 = Status.RED := by
  unfold calculate_final_diagnosis
  by_cases hg : 5 ≤ g <;> simp [hg, h]

theorem summary_diag_eq (age : Nat) (answers : List Answer) :
    (calculate_evaluation age answers).summary.diagnosis =
      (calculate_final_diagnosis (get_age_group_num age)
        (finalAreaPhase age answers).statusMap (calculate_domains answers)).1 := rfl

theorem summary_status_eq (age : Nat) (answers : List Answer) :
    (calculate_evaluation age answers).summary.final_status =
      (calculate_final_diagnosis (get_age_group_num age)
        (finalAreaPhase age answers).statusMap (calculate_domains answers)).2.1 := rfl

theorem summary_applied_eq (age : Nat) (answers : List Answer) :
    (calculate_evaluation age answers).summary.applied_previous_group =
      (finalAreaPhase age answers).applied := rfl

theorem summary_prevResult_eq (age : Nat) (answers : List Answer) :
    (calculate_evaluation age answers).summary.previous_group_result =
      (finalAreaPhase age answers).prevResult := rfl


theorem apply_prev_aux_congr (l1 l2 : List Answer) (cm : List (String × (Nat × Nat)))
    (l : List (String × Option Status))
    (hp : ∀ p ∈ l, prevAnswers l1 p.1 = prevAnswers l2 p.1) (ap : Bool)
    (w : Option Status) :
    apply_prev_aux l1 cm l ap w = apply_prev_aux l2 cm l ap w := by
  induction l generalizing ap w with
  | nil => rfl
  | cons p rest ih =>
    have hphead := hp p (by simp)
    have hrest : ∀ q ∈ rest, prevAnswers l1 q.1 = prevAnswers l2 q.1 :=
      fun q hq => hp q (by simp [hq])
    have htrig : entry_triggers l1 cm p = entry_triggers l2 cm p := by
      unfold entry_triggers
      rw [hphead]
    have hns : prev_new_status l1 p.1 = prev_new_status l2 p.1 := by
      unfold prev_new_status
      rw [hphead]
    simp only [apply_prev_aux, htrig, hns, ih hrest]

theorem calculate_evaluation_congr (age : Nat) (l1 l2 : List Answer)
    (hcur : ∀ ar ∈ AREAS, currentAnswers l1 ar = currentAnswers l2 ar)
    (hprev : ∀ ar ∈ AREAS, prevAnswers l1 ar = prevAnswers l2 ar)
    (hdom : ∀ d ∈ ["NEURO", "ALARM", "ALERT", "BIO"], count_yes l1 d = count_yes l2 d) :
    calculate_evaluation age l1 = calculate_evaluation age l2 := by
  have hdoms : calculate_domains l1 = calculate_domains l2 := by
    unfold calculate_domains
    rw [hdom "NEURO" (by simp), hdom "ALARM" (by simp), hdom "ALERT" (by simp),
      hdom "BIO" (by simp)]
  have hent : ∀ g ar, ar ∈ AREAS → areaEntry g l1 ar = areaEntry g l2 ar := by
    intro g ar har
    unfold areaEntry
    rw [hcur ar har]
  have hsm : ∀ g, calc_area_status_map g l1 = calc_area_status_map g l2 := by
    intro g
    unfold calc_area_status_map
    exact List.map_congr_left (fun ar har => by rw [hent g ar har])
  have hcm : ∀ g, calc_area_counts_map g l1 = calc_area_counts_map g l2 := by
    intro g
    unfold calc_area_counts_map
    exact List.map_congr_left (fun ar har => by rw [hent g ar har])
  have hp : ∀ p ∈ calc_area_status_map (get_age_group_num age) l2,
      prevAnswers l1 p.1 = prevAnswers l2 p.1 := by
    intro p hpmem
    unfold calc_area_status_map at hpmem
    obtain ⟨ar, har, rfl⟩ := List.mem_map.1 hpmem
    exact hprev ar har
  have hph : finalAreaPhase age l1 = finalAreaPhase age l2 := by
    simp only [finalAreaPhase, apply_previous_group_if_needed]
    rw [hsm, hcm,
      apply_prev_aux_congr l1 l2 (calc_area_counts_map (get_age_group_num age) l2)
        (calc_area_status_map (get_age_group_num age) l2) hp false none]
  simp only [calculate_evaluation]
  rw [hdoms, hph]

/-- An answer whose question has a domain outside the five known domains, or
domain AREA with an area outside the five known areas. -/
def invalidAnswer (a : Answer) : Bool :=
  !(["AREA", "NEURO", "ALARM", "ALERT", "BIO"].contains a.question.domain)
  || (a.question.domain == "AREA" && !(AREAS.any (fun ar => a.question.area == some ar)))

theorem invalid_area_filter_false (a : Answer) (h : invalidAnswer a = true)
    (ar : String) (har : ar ∈ AREAS) (b : Bool) :
    (a.question.domain == "AREA" && a.question.area == some ar && b) = false := by
  unfold invalidAnswer at h
  rw [Bool.or_eq_true] at h
  rcases h with h | h
  · have hne : a.question.domain ≠ "AREA" := by
      intro he
      simp [he] at h
    simp [hne]
  · rw [Bool.and_eq_true] at h
    obtain ⟨h1, h2⟩ := h
    have hfa : (a.question.area == some ar) = false := by
      rw [Bool.not_eq_true', List.any_eq_false] at h2
      simpa using h2 ar har
    simp [hfa]

theorem invalid_domain_filter_false (a : Answer) (h : invalidAnswer a = true)
    (d : String) (hd : d ∈ ["NEURO", "ALARM", "ALERT", "BIO"]) :
    (a.question.domain == d && a.value_bool) = false := by
  unfold invalidAnswer at h
  rw [Bool.or_eq_true] at h
  have hne : a.question.domain ≠ d := by
    rcases h with h | h
    · intro he
      rw [he] at h
      fin_cases hd <;> simp_all
    · rw [Bool.and_eq_true] at h
      have h1 : a.question.domain = "AREA" := by simpa using h.1
      rw [h1]
      fin_cases hd <;> decide
  simp [hne]

theorem currentAnswers_insert_invalid (pre post : List Answer) (a : Answer)
    (h : invalidAnswer a = true) (ar : String) (har : ar ∈ AREAS) :
    currentAnswers (pre ++ a :: post) ar = currentAnswers (pre ++ post) ar := by
  have hfa := invalid_area_filter_false a h ar har (!a.from_previous_group)
  simp [currentAnswers, List.filter_append, List.filter_cons, hfa]

theorem prevAnswers_insert_invalid (pre post : List Answer) (a : Answer)
    (h : invalidAnswer a = true) (ar : String) (har : ar ∈ AREAS) :
    prevAnswers (pre ++ a :: post) ar = prevAnswers (pre ++ post) ar := by
  have hfa := invalid_area_filter_false a h ar har a.from_previous_group
  simp [prevAnswers, List.filter_append, List.filter_cons, hfa]

theorem count_yes_insert_invalid (pre post : List Answer) (a : Answer)
    (h : invalidAnswer a = true) (d : String)
    (hd : d ∈ ["NEURO", "ALARM", "ALERT", "BIO"]) :
    count_yes (pre ++ a :: post) d = count_yes (pre ++ post) d := by
  have hfa := invalid_domain_filter_false a h d hd
  simp [count_yes, List.filter_append, List.filter_cons, hfa]


theorem reconcileEntry_fst (answers : List Answer) (cm : List (String × (Nat × Nat)))
    (p : String × Option Status) : (reconcileEntry answers cm p).1 = p.1 := by
  unfold reconcileEntry
  split <;> rfl

theorem reconcileEntry_none (answers : List Answer) (cm : List (String × (Nat × Nat)))
    (k : String) : reconcileEntry answers cm (k, none) = (k, none) := by
  unfold reconcileEntry entry_triggers
  simp

theorem statusMap_entry_absent (age : Nat) (answers : List Answer) (ar : String)
    (hnone : (areaEntry (get_age_group_num age) answers ar).1 = none) :
    ∀ p ∈ (finalAreaPhase age answers).statusMap, p.1 = ar → p.2 = none := by
  intro p hp hfst
  rw [finalAreaPhase_statusMap] at hp
  by_cases hprev : (configFor (get_age_group_num age)).has_previous
  · rw [if_pos hprev] at hp
    obtain ⟨q, hq, rfl⟩ := List.mem_map.1 hp
    unfold calc_area_status_map at hq
    obtain ⟨x, hx, rfl⟩ := List.mem_map.1 hq
    rw [reconcileEntry_fst] at hfst
    simp only at hfst
    subst hfst
    rw [hnone, reconcileEntry_none]
  · rw [if_neg hprev] at hp
    unfold calc_area_status_map at hp
    obtain ⟨x, hx, rfl⟩ := List.mem_map.1 hp
    simp only at hfst
    subst hfst
    simpa using hnone

theorem no_area_result_of_absent (age : Nat) (answers : List Answer) (ar : String)
    (har : ar ∈ AREAS) (h : (currentAnswers answers ar).isEmpty = true) :
    ∀ r ∈ (calculate_evaluation age answers).areaResults, r.area ≠ ar := by
  have hentry : areaEntry (get_age_group_num age) answers ar = (none, (0, 0)) := by
    unfold areaEntry
    simp [h]
  have hlook : (finalAreaPhase age answers).countsMap.lookup ar = some (0, 0) := by
    rw [finalAreaPhase_countsMap, lookup_counts_map (get_age_group_num age) answers ar har,
      hentry]
  intro r hr hra
  have hr2 : r ∈ persist_area_results (finalAreaPhase age answers).statusMap
      (finalAreaPhase age answers).countsMap := hr
  unfold persist_area_results at hr2
  obtain ⟨p, hp, hfp⟩ := List.mem_filterMap.1 hr2
  simp only at hfp
  by_cases hcond : p.2 = none ∧
      (((finalAreaPhase age answers).countsMap.lookup p.1).getD (0, 0)).2 = 0
  · rw [if_pos hcond] at hfp
    exact Option.noConfusion hfp
  · rw [if_neg hcond] at hfp
    have hrarea : r.area = p.1 := by
      have := (Option.some.inj hfp).symm
      rw [this]
    have hp1 : p.1 = ar := by rw [← hrarea, hra]
    have hpn : p.2 = none :=
      statusMap_entry_absent age answers ar (by rw [hentry]) p hp hp1
    apply hcond
    refine ⟨hpn, ?_⟩
    rw [hp1, hlook]
    rfl


theorem calculate_final_diagnosis_spec (g : Nat) (sm : List (String × Option Status))
    (doms : Domains) :
    ((calculate_final_diagnosis g sm doms).1, (calculate_final_diagnosis g sm doms).2.1) =
      (if 5 ≤ g then
        if 1 ≤ countAreaStatus sm Status.RED ∨ doms.alarm.status = Status.RED
            ∨ doms.neuro.status = Status.RED then (Diagnosis.RISK, Status.RED)
        else if 1 ≤ countAreaStatus sm Status.YELLOW then (Diagnosis.DELAY, Status.YELLOW)
        else (Diagnosis.NORMAL, Status.GREEN)
      else
        if 1 ≤ countAreaStatus sm Status.RED ∨ 2 ≤ countAreaStatus sm Status.YELLOW
            ∨ (1 ≤ countAreaStatus sm Status.YELLOW ∧
                (1 ≤ doms.bioRisk.count ∨ 1 ≤ doms.alert.count))
            ∨ doms.alarm.status = Status.RED ∨ doms.neuro.status = Status.RED then
          (Diagnosis.RISK, Status.RED)
        else if 1 ≤ countAreaStatus sm Status.YELLOW ∨ 2 ≤ doms.alert.count
            ∨ 2 ≤ doms.bioRisk.count ∨ (1 ≤ doms.alert.count ∧ 1 ≤ doms.bioRisk.count) then
          (Diagnosis.DELAY, Status.YELLOW)
        else (Diagnosis.NORMAL, Status.GREEN)) := by
  simp only [calculate_final_diagnosis, filterMap_count_eq]
  split_ifs <;> rfl


theorem reconcileEntry_eq (answers : List Answer) (cm : List (String × (Nat × Nat)))
    (k : String) (st : Option Status) :
    reconcileEntry answers cm (k, st) =
      (k, if entry_triggers answers cm (k, st) then some (prev_new_status answers k)
          else st) := by
  by_cases ht : entry_triggers answers cm (k, st) <;> simp [reconcileEntry, ht]

theorem lookup_final_statusMap (age : Nat) (answers : List Answer) (ar : String)
    (har : ar ∈ AREAS) (h : (configFor (get_age_group_num age)).has_previous = true) :
    (finalAreaPhase age answers).statusMap.lookup ar =
      some (if entry_triggers answers (calc_area_counts_map (get_age_group_num age) answers)
            (ar, (areaEntry (get_age_group_num age) answers ar).1)
        then some (prev_new_status answers ar)
        else (areaEntry (get_age_group_num age) answers ar).1) := by
  rw [finalAreaPhase_statusMap, if_pos h]
  unfold calc_area_status_map
  rw [List.map_map]
  have hcomp : (reconcileEntry answers (calc_area_counts_map (get_age_group_num age) answers)) ∘
      (fun x => (x, (areaEntry (get_age_group_num age) answers x).1)) =
      fun x =>
        (x, if entry_triggers answers (calc_area_counts_map (get_age_group_num age) answers)
              (x, (areaEntry (get_age_group_num age) answers x).1)
            then some (prev_new_status answers x)
            else (areaEntry (get_age_group_num age) answers x).1) := by
    funext x
    simp [reconcileEntry_eq]
  rw [hcomp]
  exact lookup_areas_map _ ar har

theorem count_yes_le_domain_filter (answers : List Answer) (d : String) :
    count_yes answers d ≤ (answers.filter (fun a => a.question.domain == d)).length := by
  unfold count_yes
  induction answers with
  | nil => simp
  | cons a rest ih =>
    by_cases h1 : a.question.domain == d <;> by_cases h2 : a.value_bool <;>
      simp [List.filter_cons, h1, h2] <;> omega

/-- An area was reclassified to RED by the previous-group reconciliation. -/
def reclassifiedToRed (age : Nat) (answers : List Answer) (ar : String) : Prop :=
  (configFor (get_age_group_num age)).has_previous = true
  ∧ triggerProp (get_age_group_num age) answers ar
  ∧ yesCount (prevAnswers answers ar) < 2


/-! ### Claim theorems -/

/-- C1: for every evaluation, the final diagnosis and status follow the
band-dependent decision table over the post-reconciliation area statuses and
the domain results: for bands at least 5, (RISK, RED) when a RED area exists
or the ALARM or NEURO domain is RED, else (DELAY, YELLOW) when a YELLOW area
exists, else (NORMAL, GREEN); for bands 1-4, (RISK, RED) when a RED area
exists, or two YELLOW areas, or one YELLOW area together with a biological or
alert hit, or ALARM or NEURO is RED, else (DELAY, YELLOW) when a YELLOW area
exists or there are two alerts, two biological hits, or one of each, else
(NORMAL, GREEN); absent areas are excluded from the counts. -/
theorem C1_final_diagnosis_table (age : Nat) (answers : List Answer) :
    ((calculate_evaluation age answers).summary.diagnosis,
      (calculate_evaluation age answers).summary.final_status) =
      (if 5 ≤ get_age_group_num age then
        if 1 ≤ countAreaStatus (finalAreaPhase age answers).statusMap Status.RED
            ∨ (calculate_domains answers).alarm.status = Status.RED
            ∨ (calculate_domains answers).neuro.status = Status.RED then
          (Diagnosis.RISK, Status.RED)
        else if 1 ≤ countAreaStatus (finalAreaPhase age answers).statusMap Status.YELLOW then
          (Diagnosis.DELAY, Status.YELLOW)
        else (Diagnosis.NORMAL, Status.GREEN)
      else
        if 1 ≤ countAreaStatus (finalAreaPhase age answers).statusMap Status.RED
            ∨ 2 ≤ countAreaStatus (finalAreaPhase age answers).statusMap Status.YELLOW
            ∨ (1 ≤ countAreaStatus (finalAreaPhase age answers).statusMap Status.YELLOW
                ∧ (1 ≤ (calculate_domains answers).bioRisk.count
                    ∨ 1 ≤ (calculate_domains answers).alert.count))
            ∨ (calculate_domains answers).alarm.status = Status.RED
            ∨ (calculate_domains answers).neuro.status = Status.RED then
          (Diagnosis.RISK, Status.RED)
        else if 1 ≤ countAreaStatus (finalAreaPhase age answers).statusMap Status.YELLOW
            ∨ 2 ≤ (calculate_domains answers).alert.count
            ∨ 2 ≤ (calculate_domains answers).bioRisk.count
            ∨ (1 ≤ (calculate_domains answers).alert.count
                ∧ 1 ≤ (calculate_domains answers).bioRisk.count) then
          (Diagnosis.DELAY, Status.YELLOW)
        else (Diagnosis.NORMAL, Status.GREEN)) := by
  rw [summary_diag_eq, summary_status_eq]
  exact calculate_final_diagnosis_spec (get_age_group_num age)
    (finalAreaPhase age answers).statusMap (calculate_domains answers)

/-- C2: for each of the five areas only current-band AREA answers of that area
are counted; zero such answers make the area absent (no persisted AreaResult),
and otherwise the status follows the band thresholds: band 1 GREEN iff a
perfect score else RED, bands 2-7 GREEN iff a perfect score else YELLOW,
bands 8-15 GREEN iff at least two yes-answers else YELLOW. -/
theorem C2_area_scoring (age : Nat) (answers : List Answer) (ar : String)
    (h : ar ∈ AREAS) :
    ((currentAnswers answers ar).isEmpty = true →
      (calc_area_status_map (get_age_group_num age) answers).lookup ar = some none
      ∧ ∀ r ∈ (calculate_evaluation age answers).areaResults, r.area ≠ ar)
    ∧ ((currentAnswers answers ar).isEmpty = false →
      (calc_area_status_map (get_age_group_num age) answers).lookup ar =
        some (some (areaSpecStatus (get_age_group_num age)
          (yesCount (currentAnswers answers ar)) (currentAnswers answers ar).length))) := by
  constructor
  · intro hemp
    refine ⟨?_, no_area_result_of_absent age answers ar h hemp⟩
    rw [lookup_status_map _ _ _ h]
    unfold areaEntry
    simp [hemp]
  · intro hne
    rw [lookup_status_map _ _ _ h]
    unfold areaEntry
    simp only [hne, Bool.false_eq_true, if_false]
    rw [get_area_status_eq_spec _ _ _ (get_age_group_num_ge_one age)]
    have hlen : (currentAnswers answers ar).length ≠ 0 := by
      intro h0
      rw [List.length_eq_zero] at h0
      rw [h0] at hne
      simp at hne
    simp [hlen]

/-- Witness for C2 at a concrete input: an area with no applicable answers is
reported as absent. -/
theorem C2_area_scoring_witness :
    ("motriz_gruesa" ∈ AREAS) ∧
      (calc_area_status_map (get_age_group_num 0) []).lookup "motriz_gruesa" =
        some none :=
  ⟨by decide, ((C2_area_scoring 0 [] "motriz_gruesa" (by decide)).1 (by decide)).1⟩

/-- C4: all four domain results carry the statuses the yes-counts dictate:
NEURO and ALARM are RED exactly on a positive yes-count, ALERT and BIO are
YELLOW exactly on a positive yes-count, all else GREEN; a domain with zero
matching answers still yields a result with count 0 and status GREEN. -/
theorem C4_domain_statuses (answers : List Answer) :
    (calculate_domains answers).neuro.status =
        (if 0 < count_yes answers "NEURO" then Status.RED else Status.GREEN)
    ∧ (calculate_domains answers).alarm.status =
        (if 0 < count_yes answers "ALARM" then Status.RED else Status.GREEN)
    ∧ (calculate_domains answers).alert.status =
        (if 1 ≤ count_yes answers "ALERT" then Status.YELLOW else Status.GREEN)
    ∧ (calculate_domains answers).bioRisk.status =
        (if 0 < count_yes answers "BIO" then Status.YELLOW else Status.GREEN)
    ∧ ((persist_domain_results (calculate_domains answers)).map (fun r => r.domain)) =
        ["NEURO", "ALARM", "ALERT", "BIO"]
    ∧ ((answers.filter (fun a => a.question.domain == "NEURO")).length = 0 →
        (calculate_domains answers).neuro.count = 0
        ∧ (calculate_domains answers).neuro.status = Status.GREEN)
    ∧ ((answers.filter (fun a => a.question.domain == "ALARM")).length = 0 →
        (calculate_domains answers).alarm.count = 0
        ∧ (calculate_domains answers).alarm.status = Status.GREEN)
    ∧ ((answers.filter (fun a => a.question.domain == "ALERT")).length = 0 →
        (calculate_domains answers).alert.count = 0
        ∧ (calculate_domains answers).alert.status = Status.GREEN)
    ∧ ((answers.filter (fun a => a.question.domain == "BIO")).length = 0 →
        (calculate_domains answers).bioRisk.count = 0
        ∧ (calculate_domains answers).bioRisk.status = Status.GREEN) := by
  have hz : ∀ d : String,
      (answers.filter (fun a => a.question.domain == d)).length = 0 →
        count_yes answers d = 0 := by
    intro d hd
    have := count_yes_le_domain_filter answers d
    omega
  refine ⟨rfl, rfl, rfl, rfl, rfl, ?_, ?_, ?_, ?_⟩ <;> intro hf
  · have h0 := hz "NEURO" hf
    simp [calculate_domains, h0]
  · have h0 := hz "ALARM" hf
    simp [calculate_domains, h0]
  · have h0 := hz "ALERT" hf
    simp [calculate_domains, h0]
  · have h0 := hz "BIO" hf
    simp [calculate_domains, h0]

/-- Witness for C4 at a concrete input: with no answers at all, the NEURO
domain result still exists with count 0 and status GREEN. -/
theorem C4_domain_statuses_witness :
    ((([] : List Answer).filter (fun a => a.question.domain == "NEURO")).length = 0)
      ∧ (calculate_domains []).neuro.count = 0
      ∧ (calculate_domains []).neuro.status = Status.GREEN := by
  refine ⟨by decide, ?_, ?_⟩
  · exact ((C4_domain_statuses []).2.2.2.2.2.1 (by decide)).1
  · exact ((C4_domain_statuses []).2.2.2.2.2.1 (by decide)).2

/-- C5 counterexample: with a single NEURO yes-answer the NEURO yes-count is
1, but the persisted NEURO DomainResult row carries count 0 (the yes-count
is stored in red_flags instead), so the persisted count does not equal the
domain yes-count for NEURO. -/
theorem C5_persisted_count_counterexample :
    count_yes [⟨⟨"NEURO", none, false⟩, false, true⟩] "NEURO" = 1 ∧
      (persist_domain_results
          (calculate_domains [⟨⟨"NEURO", none, false⟩, false, true⟩])).map
        (fun r => (r.domain, r.count, r.red_flags)) =
        [("NEURO", 0, 1), ("ALARM", 0, 0), ("ALERT", 0, 0), ("BIO", 0, 0)] := by
  decide

/-- C5 amended: the persisted count equals the domain yes-count for ALARM,
ALERT and BIO; for NEURO the persisted count is always 0 and the yes-count is
persisted in red_flags, while red_flags is 0 for the other three domains. -/
theorem C5_persisted_counts_amended (answers : List Answer) :
    (persist_domain_results (calculate_domains answers)).map
        (fun r => (r.domain, r.count, r.red_flags)) =
      [("NEURO", 0, count_yes answers "NEURO"),
       ("ALARM", count_yes answers "ALARM", 0),
       ("ALERT", count_yes answers "ALERT", 0),
       ("BIO", count_yes answers "BIO", 0)] := rfl

/-- C6: the age-band resolver maps every non-negative month count to an
ordinal 1..15 through the fixed thresholds, with no error path; every age
above 59 months lands in band 15. -/
theorem C6_age_band_resolver (months : Nat) :
    get_age_group_num months =
      (if months ≤ 1 then 1 else if months ≤ 2 then 2 else if months ≤ 3 then 3
       else if months ≤ 4 then 4 else if months ≤ 6 then 5 else if months ≤ 9 then 6
       else if months ≤ 12 then 7 else if months ≤ 15 then 8 else if months ≤ 18 then 9
       else if months ≤ 24 then 10 else if months ≤ 30 then 11 else if months ≤ 36 then 12
       else if months ≤ 48 then 13 else if months ≤ 59 then 14 else 15)
    ∧ 1 ≤ get_age_group_num months ∧ get_age_group_num months ≤ 15
    ∧ get_age_group_num (60 + months) = 15 :=
  ⟨rfl, get_age_group_num_ge_one months, get_age_group_num_le_15 months,
    get_age_group_num_of_ge_60 (60 + months) (by omega)⟩

/-- C7 counterexample: an answer whose question carries the unknown domain
BOGUS does not make the scoring run fail; the run completes, produces all
derived results, and yields exactly the output of the same run without that
answer -- the invalid answer is silently ignored, not rejected. -/
theorem C7_invalid_answer_counterexample :
    invalidAnswer ⟨⟨"BOGUS", none, false⟩, false, true⟩ = true ∧
      calculate_evaluation 3 [⟨⟨"BOGUS", none, false⟩, false, true⟩] =
        calculate_evaluation 3 [] ∧
      (calculate_evaluation 3 [⟨⟨"BOGUS", none, false⟩, false, true⟩]).summary.diagnosis
        = Diagnosis.NORMAL ∧
      (calculate_evaluation 3
          [⟨⟨"BOGUS", none, false⟩, false, true⟩]).domainResults.length = 4 := by
  decide

/-- C7 amended: an answer with an invalid domain/area combination is silently
excluded from every count: the scoring run completes normally and its entire
derived output equals the output for the answer set without that answer. -/
theorem C7_invalid_answers_ignored (age : Nat) (pre post : List Answer) (a : Answer)
    (h : invalidAnswer a = true) :
    calculate_evaluation age (pre ++ a :: post) = calculate_evaluation age (pre ++ post) :=
  calculate_evaluation_congr age _ _
    (fun ar har => currentAnswers_insert_invalid pre post a h ar har)
    (fun ar har => prevAnswers_insert_invalid pre post a h ar har)
    (fun d hd => count_yes_insert_invalid pre post a h d hd)

/-- Witness for C7 amended at a concrete input. -/
theorem C7_invalid_answers_ignored_witness :
    invalidAnswer ⟨⟨"XYZ", none, false⟩, false, true⟩ = true ∧
      calculate_evaluation 7 ([] ++ ⟨⟨"XYZ", none, false⟩, false, true⟩ :: []) =
        calculate_evaluation 7 ([] ++ []) :=
  ⟨by decide, C7_invalid_answers_ignored 7 [] []
    ⟨⟨"XYZ", none, false⟩, false, true⟩ (by decide)⟩

/-- C8: scoring is idempotent: the runner deletes all derived records before
recomputing them, so a second run on the same age and answers leaves exactly
the state of the first run, and the stored result never depends on the
previously stored derived records. -/
theorem C8_idempotent (age : Nat) (answers : List Answer) (s t : EvalState) :
    run_calculate_evaluation age answers (run_calculate_evaluation age answers s) =
        run_calculate_evaluation age answers s
    ∧ run_calculate_evaluation age answers s = run_calculate_evaluation age answers t :=
  ⟨rfl, rfl⟩

/-- C9: adding one ALARM yes-answer never decreases the severity of the final
status (GREEN < YELLOW < RED) nor of the diagnosis (NORMAL < DELAY < RISK). -/
theorem C9_alarm_monotone (age : Nat) (answers : List Answer) (a : Answer)
    (hdom : a.question.domain = "ALARM") (hval : a.value_bool = true) :
    statusSeverity (calculate_evaluation age answers).summary.final_status ≤
        statusSeverity (calculate_evaluation age (a :: answers)).summary.final_status
    ∧ diagnosisSeverity (calculate_evaluation age answers).summary.diagnosis ≤
        diagnosisSeverity (calculate_evaluation age (a :: answers)).summary.diagnosis := by
  have hpos : 0 < count_yes (a :: answers) "ALARM" := by
    unfold count_yes
    rw [List.filter_cons]
    simp [hdom, hval]
  have halarm : (calculate_domains (a :: answers)).alarm.status = Status.RED := by
    simp [calculate_domains, hpos]
  have hfd := final_diagnosis_of_red_alarm (get_age_group_num age)
    (finalAreaPhase age (a :: answers)).statusMap (calculate_domains (a :: answers)) halarm
  constructor
  · have h2 : (calculate_evaluation age (a :: answers)).summary.final_status =
        Status.RED := by
      rw [summary_status_eq]
      exact hfd.2
    rw [h2]
    exact statusSeverity_le_two _
  · have h2 : (calculate_evaluation age (a :: answers)).summary.diagnosis =
        Diagnosis.RISK := by
      rw [summary_diag_eq]
      exact hfd.1
    rw [h2]
    exact diagnosisSeverity_le_two _

/-- Witness for C9 at a concrete input. -/
theorem C9_alarm_monotone_witness :
    (⟨⟨"ALARM", none, false⟩, false, true⟩ : Answer).question.domain = "ALARM" ∧
    (⟨⟨"ALARM", none, false⟩, false, true⟩ : Answer).value_bool = true ∧
      statusSeverity (calculate_evaluation 3 []).summary.final_status ≤
        statusSeverity (calculate_evaluation 3
          [⟨⟨"ALARM", none, false⟩, false, true⟩]).summary.final_status :=
  ⟨rfl, rfl, (C9_alarm_monotone 3 [] ⟨⟨"ALARM", none, false⟩, false, true⟩ rfl rfl).1⟩


/-- C3: in every band with the previous-group fallback enabled (every band
except band 1), reconciliation rewrites exactly the areas that are YELLOW
with a current-band yes-count of zero and at least one fallback answer: such
an area becomes YELLOW when the fallback yes-count is at least 2 and RED
otherwise, every other area keeps its status; applied_previous_group is true
iff at least one area triggered, and previous_group_result is the worst
status produced (RED over YELLOW). -/
theorem C3_previous_group_reconciliation (age : Nat) (answers : List Answer)
    (h : (configFor (get_age_group_num age)).has_previous = true) :
    (∀ ar ∈ AREAS,
      (triggerProp (get_age_group_num age) answers ar →
        (finalAreaPhase age answers).statusMap.lookup ar =
          some (some (if 2 ≤ yesCount (prevAnswers answers ar) then Status.YELLOW
            else Status.RED)))
      ∧ (¬ triggerProp (get_age_group_num age) answers ar →
        (finalAreaPhase age answers).statusMap.lookup ar =
          some (areaEntry (get_age_group_num age) answers ar).1))
    ∧ ((calculate_evaluation age answers).summary.applied_previous_group = true ↔
        ∃ ar ∈ AREAS, triggerProp (get_age_group_num age) answers ar)
    ∧ ((calculate_evaluation age answers).summary.previous_group_result =
        (if ∃ ar ∈ AREAS, triggerProp (get_age_group_num age) answers ar ∧
              yesCount (prevAnswers answers ar) < 2 then some Status.RED
         else if ∃ ar ∈ AREAS, triggerProp (get_age_group_num age) answers ar then
           some Status.YELLOW
         else none))
    ∧ (∀ g2 : Nat, 1 ≤ g2 → g2 ≤ 15 → ((configFor g2).has_previous = true ↔ g2 ≠ 1)) := by
  refine ⟨?_, ?_, ?_, ?_⟩
  · intro ar har
    constructor
    · intro ht
      rw [lookup_final_statusMap age answers ar har h,
        if_pos ((entry_triggers_iff _ answers ar har).2 ht)]
      unfold prev_new_status
      rfl
    · intro ht
      rw [lookup_final_statusMap age answers ar har h,
        if_neg (fun hc => ht ((entry_triggers_iff _ answers ar har).1 hc))]
  · rw [summary_applied_eq, finalAreaPhase_applied, h, Bool.true_and]
    exact any_status_map_iff (get_age_group_num age) answers
  · rw [summary_prevResult_eq, finalAreaPhase_prevResult, if_pos h]
    by_cases hR : anyPrevRed answers (calc_area_counts_map (get_age_group_num age) answers)
        (calc_area_status_map (get_age_group_num age) answers) = true
    · rw [if_pos hR, if_pos ((anyPrevRed_iff _ answers).1 hR)]
    · have hRn : ¬ ∃ ar ∈ AREAS, triggerProp (get_age_group_num age) answers ar ∧
          yesCount (prevAnswers answers ar) < 2 :=
        fun hc => hR ((anyPrevRed_iff _ answers).2 hc)
      rw [if_neg hR, if_neg hRn]
      by_cases hA : (calc_area_status_map (get_age_group_num age) answers).any
          (entry_triggers answers
            (calc_area_counts_map (get_age_group_num age) answers)) = true
      · rw [if_pos hA, if_pos ((any_status_map_iff _ answers).1 hA)]
      · have hAn : ¬ ∃ ar ∈ AREAS, triggerProp (get_age_group_num age) answers ar :=
          fun hc => hA ((any_status_map_iff _ answers).2 hc)
        rw [if_neg hA, if_neg hAn]
  · intro g2 h1 h2
    interval_cases g2 <;> decide

/-- Witness for C3 at a concrete input: band 9, one area YELLOW with zero
current-band yes-answers and a single fallback yes-answer, reconciled to RED. -/
theorem C3_previous_group_reconciliation_witness :
    ((configFor (get_age_group_num 17)).has_previous = true) ∧
      (finalAreaPhase 17
        [⟨⟨"AREA", some "motriz_gruesa", false⟩, false, false⟩,
         ⟨⟨"AREA", some "motriz_gruesa", false⟩, true, true⟩]).statusMap.lookup
        "motriz_gruesa" = some (some Status.RED) := by
  refine ⟨by decide, ?_⟩
  have hmain := ((C3_previous_group_reconciliation 17
      [⟨⟨"AREA", some "motriz_gruesa", false⟩, false, false⟩,
       ⟨⟨"AREA", some "motriz_gruesa", false⟩, true, true⟩] (by decide)).1
      "motriz_gruesa" (by decide)).1 (by decide)
  rw [hmain]
  decide

/-- C10: the produced Summary satisfies: applied_previous_group is true iff
previous_group_result is non-null; a non-null previous_group_result is YELLOW
or RED; and it is RED exactly when at least one area was reclassified to RED
by the previous-group reconciliation. -/
theorem C10_summary_invariant (age : Nat) (answers : List Answer) :
    ((calculate_evaluation age answers).summary.applied_previous_group = true ↔
      (calculate_evaluation age answers).summary.previous_group_result ≠ none)
    ∧ ((calculate_evaluation age answers).summary.previous_group_result = none
      ∨ (calculate_evaluation age answers).summary.previous_group_result =
          some Status.YELLOW
      ∨ (calculate_evaluation age answers).summary.previous_group_result =
          some Status.RED)
    ∧ ((calculate_evaluation age answers).summary.previous_group_result =
          some Status.RED ↔
      ∃ ar ∈ AREAS, reclassifiedToRed age answers ar) := by
  rw [summary_applied_eq, summary_prevResult_eq, finalAreaPhase_applied,
    finalAreaPhase_prevResult]
  by_cases hprev : (configFor (get_age_group_num age)).has_previous = true
  case neg =>
    have hp : (configFor (get_age_group_num age)).has_previous = false := by
      simpa using hprev
    rw [hp]
    refine ⟨by simp, Or.inl (by simp), ?_⟩
    constructor
    · intro hc
      simp at hc
    · rintro ⟨ar, har, hrc⟩
      exact absurd hrc.1 (by simp [hp])
  case pos =>
    rw [hprev]
    by_cases hR : anyPrevRed answers (calc_area_counts_map (get_age_group_num age) answers)
        (calc_area_status_map (get_age_group_num age) answers) = true
    · have hexR := (anyPrevRed_iff (get_age_group_num age) answers).1 hR
      have hexT : ∃ ar ∈ AREAS, triggerProp (get_age_group_num age) answers ar := by
        obtain ⟨ar, har, ht, _⟩ := hexR
        exact ⟨ar, har, ht⟩
      have hA : (calc_area_status_map (get_age_group_num age) answers).any
          (entry_triggers answers
            (calc_area_counts_map (get_age_group_num age) answers)) = true :=
        (any_status_map_iff (get_age_group_num age) answers).2 hexT
      rw [if_pos rfl, if_pos hR]
      refine ⟨by simp [hA], Or.inr (Or.inr rfl), ?_⟩
      constructor
      · intro hdummy
        obtain ⟨ar, har, ht, hlt⟩ := hexR
        exact ⟨ar, har, hprev, ht, hlt⟩
      · intro hdummy
        rfl
    · rw [if_pos rfl, if_neg hR]
      by_cases hA : (calc_area_status_map (get_age_group_num age) answers).any
          (entry_triggers answers
            (calc_area_counts_map (get_age_group_num age) answers)) = true
      · rw [if_pos hA]
        refine ⟨by simp [hA], Or.inr (Or.inl rfl), ?_⟩
        constructor
        · intro hc
          exact absurd hc (by simp)
        · rintro ⟨ar, har, hnp, ht, hlt⟩
          exact absurd ((anyPrevRed_iff (get_age_group_num age) answers).2
            ⟨ar, har, ht, hlt⟩) hR
      · rw [if_neg hA]
        have hAn : ((calc_area_status_map (get_age_group_num age) answers).any
            (entry_triggers answers
              (calc_area_counts_map (get_age_group_num age) answers))) = false := by
          simpa using hA
        refine ⟨by simp [hAn], Or.inl rfl, ?_⟩
        constructor
        · intro hc
          simp at hc
        · rintro ⟨ar, har, hnp, ht, hlt⟩
          exact absurd ((anyPrevRed_iff (get_age_group_num age) answers).2
            ⟨ar, har, ht, hlt⟩) hR

end EDI
